import Mathlib

/-!
Shallow embedding of the fedora-rs OpenID session machinery:
- the string-to-string state map used by the redirect walker
  (a model of Rust's `HashMap<String, String>` insert/get/entry),
- the redirect walker of `OpenIDSessionBuilder::build`,
- the credential-collection step,
- the JSON envelope decoding of the authentication response,
- the cookie cache (`src/openid/cookie_cache.rs`) and the caching jar
  (`src/openid/cookies.rs`),
- the two historical `build()` variants (`src/openid/mod.rs` with
  `CookieCache`, and `src/openid.rs` with `CachingJar`).

Modelling notes: `reqwest::Client::builder().build()` failures are
environmental and treated as absent; the walk's ingestion of response
cookies into the in-memory cache only affects what a successful
`write_cached` would persist, which is abstracted into a single
write-back event, so the ingested contents are not threaded through
`build()` (the merge logic itself is modelled by `ingest_cookies`).
-/

namespace Fedora

/-! ### Definitions -/

/-- Model of `HashMap<String, String>`: an association list with at most one
entry per key, updated in place by `insert`. -/
def StateMap : Type := List (String × String)

/-- `HashMap::get`: the value stored for a key, if any. -/
def mGet (m : StateMap) (k : String) : Option String :=
  match m with
  | [] => none
  | p :: rest => if p.1 = k then some p.2 else mGet rest k

/-- `HashMap::insert`: replace the value for an existing key, or append a
fresh entry. -/
def mInsert (m : StateMap) (k v : String) : StateMap :=
  match m with
  | [] => [(k, v)]
  | p :: rest => if p.1 = k then (k, v) :: rest else p :: mInsert rest k v

/-- Merging a list of query pairs into the state, in order
(`for (key, value) in args { state.insert(...) }`). -/
def insertPairs (m : StateMap) (ps : List (String × String)) : StateMap :=
  ps.foldl (fun acc p => mInsert acc p.1 p.2) m

/-- The last value associated with a key inside one URL's query-pair list
(the value that survives merging that list into a map). -/
def pairsLast (k : String) (ps : List (String × String)) : Option String :=
  ps.foldl (fun acc p => if p.1 = k then some p.2 else acc) none

/-! ## URLs, HTTP transport, JSON -/
/-- A parsed URL: its textual form (`Url::to_string`) and its decoded query
pairs (`Url::query_pairs`). -/
structure Url where
  text : String
  query : List (String × String)
deriving DecidableEq

/-- The value of a `location` response header: either bytes that fail
`HeaderValue::to_str`, or a decoded string. -/
inductive HeaderVal where
  | undecodable
  | val (s : String)
deriving DecidableEq

/-- What the walker observes of one GET response: the status code and the
`location` header (absent, undecodable, or a string). -/
structure GetResp where
  status : Nat
  location : Option HeaderVal
deriving DecidableEq

/-- `StatusCode::is_redirection()`: 3xx. -/
def isRedirection (s : Nat) : Bool := 300 ≤ s && s < 400

/-- `StatusCode::is_success()`: 2xx. -/
def isSuccessStatus (s : Nat) : Bool := 200 ≤ s && s < 300

/-- A JSON value, as far as `serde_json` is observable here. -/
inductive Json where
  | null
  | bool (b : Bool)
  | num (n : Int)
  | str (s : String)
  | arr (elems : List Json)
  | obj (fields : List (String × Json))

/-- Outcome of the first (credentials) POST as observed by the client:
the send itself may fail, reading the body text may fail, or a body is
obtained whose JSON parse either fails (`none`) or yields a JSON value. -/
inductive AuthPostOutcome where
  | sendFailure (msg : String)
  | textFailure
  | body (b : Option Json)

/-- The network as an oracle: responses to the GETs of the redirect walk,
to the credentials POST, and to the final POST (status, or `none` for a
transport failure). -/
structure Transport where
  get : Url → Option GetResp
  authPost : AuthPostOutcome
  returnPost : Url → Option Nat

/-- Observable effects of one `build()` run. -/
inductive Event where
  | get (u : Url)
  | postAuth (form : StateMap)
  | postReturn (u : Url)
  | cacheWrite (ok : Bool)

/-! ## OpenID response envelope (`src/openid/parameters.rs`) -/
/-- `OpenIDParameters`: seventeen required renamed string fields plus the
flattened catch-all `extra` map. -/
structure OpenIDParameters where
  assoc_handle : String
  cla_signed_cla : String
  claimed_id : String
  identity : String
  lp_is_member : String
  mode : String
  ns : String
  ns_cla : String
  ns_lp : String
  ns_sreg : String
  op_endpoint : String
  response_nonce : String
  return_to : String
  sig : String
  signed : String
  sreg_email : String
  sreg_nickname : String
  extra : List (String × Json)

/-- `OpenIDResponse`: the `{success, response}` envelope. -/
structure OpenIDResponse where
  success : Bool
  response : OpenIDParameters

/-- Field lookup in a JSON object (first occurrence, as serde sees it). -/
def jLookup (fields : List (String × Json)) (k : String) : Option Json :=
  match fields with
  | [] => none
  | f :: rest => if f.1 = k then some f.2 else jLookup rest k

/-- Deserializing a JSON value as a string (serde rejects anything else). -/
def asStr : Json → Option String
  | Json.str s => some s
  | _ => none

/-- Deserializing a JSON value as a bool. -/
def asBool : Json → Option Bool
  | Json.bool b => some b
  | _ => none

/-- The wire names of the seventeen known `OpenIDParameters` fields. -/
def knownParamKeys : List String :=
  ["openid.assoc_handle", "openid.cla.signed_cla", "openid.claimed_id",
   "openid.identity", "openid.lp.is_member", "openid.mode", "openid.ns",
   "openid.ns.cla", "openid.ns.lp", "openid.ns.sreg", "openid.op_endpoint",
   "openid.response_nonce", "openid.return_to", "openid.sig", "openid.signed",
   "openid.sreg.email", "openid.sreg.nickname"]

/-- The string stored under a required field of a JSON object, if it is
present and is a string. -/
def fieldStr (fs : List (String × Json)) (k : String) : Option String :=
  (jLookup fs k).bind asStr

/-- serde deserialization of `OpenIDParameters`: every known field must be
present as a string (else the deserializer errors); everything else lands
in `extra`. -/
def decodeOpenIDParameters : Json → Option OpenIDParameters
  | Json.obj fs =>
    if knownParamKeys.all (fun k => (fieldStr fs k).isSome) then
      some
        { assoc_handle := (fieldStr fs "openid.assoc_handle").getD ""
          cla_signed_cla := (fieldStr fs "openid.cla.signed_cla").getD ""
          claimed_id := (fieldStr fs "openid.claimed_id").getD ""
          identity := (fieldStr fs "openid.identity").getD ""
          lp_is_member := (fieldStr fs "openid.lp.is_member").getD ""
          mode := (fieldStr fs "openid.mode").getD ""
          ns := (fieldStr fs "openid.ns").getD ""
          ns_cla := (fieldStr fs "openid.ns.cla").getD ""
          ns_lp := (fieldStr fs "openid.ns.lp").getD ""
          ns_sreg := (fieldStr fs "openid.ns.sreg").getD ""
          op_endpoint := (fieldStr fs "openid.op_endpoint").getD ""
          response_nonce := (fieldStr fs "openid.response_nonce").getD ""
          return_to := (fieldStr fs "openid.return_to").getD ""
          sig := (fieldStr fs "openid.sig").getD ""
          signed := (fieldStr fs "openid.signed").getD ""
          sreg_email := (fieldStr fs "openid.sreg.email").getD ""
          sreg_nickname := (fieldStr fs "openid.sreg.nickname").getD ""
          extra := fs.filter (fun f => !(knownParamKeys.contains f.1)) }
    else none
  | _ => none

/-- serde deserialization of the `OpenIDResponse` envelope. -/
def decodeOpenIDResponse : Json → Option OpenIDResponse
  | Json.obj fs =>
    match (jLookup fs "success").bind asBool with
    | none => none
    | some success =>
      match (jLookup fs "response").bind decodeOpenIDParameters with
      | none => none
      | some response => some { success, response }
  | _ => none

/-! ## Error type (`src/openid/error.rs` / `src/openid.rs`) -/
/-- `OpenIDClientError`, covering the constructors of both historical
variants (the `CookieCacheError` constructor exists only in
`src/openid/error.rs`). -/
inductive OpenIDClientError where
  | RequestError
  | UrlParsingError
  | RedirectionError (error : String)
  | AuthenticationError (error : String)
  | DeserializationError
  | LoginError
  | CookieCacheError (message : String)
deriving DecidableEq

/-- The handling of the first-phase POST body once its text has been read:
`serde_json::from_str::<OpenIDResponse>` is JSON parsing (`Option Json`
input, `none` = not valid JSON) composed with envelope decoding, and any
failure of either stage hits the single `Err(_) => LoginError` arm. -/
def parseAuthResponse (body : Option Json) : Except OpenIDClientError OpenIDResponse :=
  match body.bind decodeOpenIDResponse with
  | none => Except.error OpenIDClientError.LoginError
  | some r => Except.ok r

/-! ## Cookie cache (`src/openid/cookie_cache.rs`) -/
/-- `SimpleCookie`: name, value, and optional expiry timestamp
(`DateTime<Utc>` modelled as an integer). -/
structure SimpleCookie where
  name : String
  value : String
  expires : Option Int
deriving DecidableEq

/-- `CookieCache`: the login URL the cache was created for, plus the stored
cookies. -/
structure CookieCache where
  login_url : String
  cookies : List SimpleCookie
deriving DecidableEq

/-- `CookieCache::new`. -/
def CookieCache.new (login_url : String) : CookieCache :=
  { login_url, cookies := [] }

/-- The body of the `for cached in &self.cookies` duplicate scan inside
`ingest_cookies`: a cookie counts as a duplicate only when both name and
value match a stored record. -/
def isDuplicate (cookies : List SimpleCookie) (c : SimpleCookie) : Bool :=
  cookies.any (fun cached => cached.name = c.name && cached.value = c.value)

/-- One iteration of `ingest_cookies`: push the converted cookie unless it
is a duplicate. -/
def ingestOne (cookies : List SimpleCookie) (c : SimpleCookie) : List SimpleCookie :=
  if isDuplicate cookies c then cookies else cookies ++ [c]

/-- `CookieCache::ingest_cookies`: fold every cookie of the response into
the store. -/
def CookieCache.ingest_cookies (cc : CookieCache) (incoming : List SimpleCookie) : CookieCache :=
  { cc with cookies := incoming.foldl ingestOne cc.cookies }

/-- `CookieCache::is_expired`: scan for the first cookie whose expiry is at
or before `now`. -/
def isExpiredList (now : Int) : List SimpleCookie → Bool
  | [] => false
  | c :: rest =>
    match c.expires with
    | some e => if e ≤ now then true else isExpiredList now rest
    | none => isExpiredList now rest

/-- `CookieCache::is_expired` on a cache value. -/
def CookieCache.is_expired (cc : CookieCache) (now : Int) : Bool :=
  isExpiredList now cc.cookies

/-- `HeaderValue::from_str` validity: every byte is visible ASCII, a space,
or a tab (32 ≤ b, b ≠ 127, or b = 9); bytes of multi-byte UTF-8 characters
are all ≥ 128 and hence valid, so the check is per character. -/
def validHeaderValue (s : String) : Bool :=
  s.data.all (fun c => c.toNat == 9 || (32 ≤ c.toNat && c.toNat != 127))

/-- `CookieCache::cookie_headers`: one `cookie: name=value` header per
stored cookie, failing at the first cookie that does not form a valid
header value. -/
def cookieHeadersList : List SimpleCookie → Except String (List (String × String))
  | [] => Except.ok []
  | c :: rest =>
    if validHeaderValue (c.name ++ "=" ++ c.value) then
      match cookieHeadersList rest with
      | Except.ok hs => Except.ok (("cookie", c.name ++ "=" ++ c.value) :: hs)
      | Except.error e => Except.error e
    else Except.error "Failed to convert cookie into HTTP headers."

/-- Result of `CookieCache::from_cached`, together with the file-system
effects it performed: whether a deletion of the cache file was attempted,
and whether the file was actually removed. -/
structure FromCachedResult where
  result : Except String CookieCache
  removeAttempted : Bool
  removed : Bool

/-- `CookieCache::from_cached`, with the file system as an oracle:
`read` is the result of reading and then `serde_json`-parsing the cache
file (outer error = read failure with its message, inner error = parse
failure with its message), and `removeResult` is what `fs::remove_file`
would return. -/
def from_cached (read : Except String (Except String CookieCache))
    (removeResult : Except String Unit) : FromCachedResult :=
  match read with
  | Except.error e =>
    { result := Except.error ("Failed to read cache file: " ++ e)
      removeAttempted := false
      removed := false }
  | Except.ok (Except.ok cc) =>
    { result := Except.ok cc
      removeAttempted := false
      removed := false }
  | Except.ok (Except.error perr) =>
    match removeResult with
    | Except.ok _ =>
      { result := Except.error ("Cookie cache was corrupt and was deleted: " ++ perr)
        removeAttempted := true
        removed := true }
    | Except.error serr =>
      { result := Except.error
          ("Cookie cache was corrupt (" ++ perr ++ ") but could not be deleted (" ++ serr ++ ")."),
        removeAttempted := true, removed := false }

/-! ## HTTP client configuration -/
/-- The redirect policy a `reqwest` client is built with: `Policy::none()`
or the default automatic following. -/
inductive RedirectPolicy where
  | noRedirect
  | standard
deriving DecidableEq

/-- What `build()` observably configures on a client: its default headers,
whether `cookie_store(true)` is set, whether a custom `cookie_provider`
jar is installed, and the redirect policy. -/
structure ClientConfig where
  defaultHeaders : List (String × String)
  cookieStore : Bool
  cookieProvider : Bool
  redirectPolicy : RedirectPolicy
deriving DecidableEq

/-- The session value `build()` returns: the configured client and the
optional `OpenIDParameters`. -/
structure SessionModel where
  client : ClientConfig
  params : Option OpenIDParameters

/-- The default headers both variants install: user agent and
`Accept: application/json`. -/
def defaultHeadersOf (ua : String) : List (String × String) :=
  [("user-agent", ua), ("accept", "application/json")]

/-! ## Redirect walker -/
/-- The redirect-following loop of `build()`: GET the current URL, merge
its query pairs into the state, and either follow the `location` header of
a 3xx response or stop. `pu` models `Url::parse`; the `Nat` is fuel
(`none` = the loop did not finish within the given number of hops — the
source enforces no bound). -/
def walk (t : Transport) (pu : String → Option Url) :
    Nat → Url → StateMap → Option (Except OpenIDClientError StateMap × List Event)
  | 0, _, _ => none
  | fuel + 1, url, st =>
    match t.get url with
    | none => some (Except.error OpenIDClientError.RequestError, [Event.get url])
    | some resp =>
      let st' := insertPairs st url.query
      if isRedirection resp.status then
        match resp.location with
        | none =>
          some (Except.error (OpenIDClientError.RedirectionError
            "No redirect URL provided in HTTP redirect headers."), [Event.get url])
        | some HeaderVal.undecodable =>
          some (Except.error (OpenIDClientError.RedirectionError
            "Failed to decode redirect URL."), [Event.get url])
        | some (HeaderVal.val s) =>
          match pu s with
          | none => some (Except.error OpenIDClientError.UrlParsingError, [Event.get url])
          | some next =>
            match walk t pu fuel next st' with
            | none => none
            | some (r, log) => some (r, Event.get url :: log)
      else some (Except.ok st', [Event.get url])

/-- The credential-collection step: insert `username`, `password`,
`auth_module`, `auth_flow`, then `entry("openid.mode").or_insert(...)`. -/
def collectCredentials (username password : String) (st : StateMap) : StateMap :=
  let st1 := mInsert st "username" username
  let st2 := mInsert st1 "password" password
  let st3 := mInsert st2 "auth_module" "fedoauth.auth.fas.Auth_FAS"
  let st4 := mInsert st3 "auth_flow" "fedora"
  match mGet st4 "openid.mode" with
  | some _ => st4
  | none => mInsert st4 "openid.mode" "checkid_setup"

/-! ## Authentication POSTs (shared by both `build()` variants) -/
/-- The two-POST authentication phase after the walk: submit the form,
interpret the envelope, POST the parameters to `return_to`, and check the
final status. On success the returned session carries `finalClient` and
the write-back events `writeEvents` are appended. -/
def authPhase (t : Transport) (pu : String → Option Url) (form : StateMap)
    (finalClient : ClientConfig) (writeEvents : List Event) :
    Except OpenIDClientError SessionModel × List Event :=
  match t.authPost with
  | AuthPostOutcome.sendFailure msg =>
    (Except.error (OpenIDClientError.AuthenticationError msg), [Event.postAuth form])
  | AuthPostOutcome.textFailure =>
    (Except.error OpenIDClientError.RequestError, [Event.postAuth form])
  | AuthPostOutcome.body b =>
    match parseAuthResponse b with
    | Except.error e => (Except.error e, [Event.postAuth form])
    | Except.ok openid_auth =>
      if !openid_auth.success then
        (Except.error (OpenIDClientError.AuthenticationError
          "OpenID endpoint returned an error code."), [Event.postAuth form])
      else
        match pu openid_auth.response.return_to with
        | none => (Except.error OpenIDClientError.UrlParsingError, [Event.postAuth form])
        | some return_url =>
          match t.returnPost return_url with
          | none =>
            (Except.error OpenIDClientError.RequestError,
              [Event.postAuth form, Event.postReturn return_url])
          | some status =>
            if !isSuccessStatus status && !isRedirection status then
              (Except.error (OpenIDClientError.AuthenticationError
                "Failed to complete authentication with the original site."),
                [Event.postAuth form, Event.postReturn return_url])
            else
              (Except.ok { client := finalClient, params := some openid_auth.response },
                [Event.postAuth form, Event.postReturn return_url] ++ writeEvents)

/-! ## `build()`, `CookieCache` variant (`src/openid/mod.rs`) -/
/-- The login-phase client of `src/openid/mod.rs`: default headers, cookie
store, `Policy::none()`. It is also the client of the returned session —
this variant never rebuilds a client after login. -/
def loginClientCC (ua : String) : ClientConfig :=
  { defaultHeaders := defaultHeadersOf ua
    cookieStore := true
    cookieProvider := false
    redirectPolicy := RedirectPolicy.noRedirect }

/-- `session_from_cookie_cache`: reuse the cached cookies only when the
stored login URL matches, nothing is expired, and every cookie converts to
a valid header; the resulting client carries the cookie headers and
`Policy::none()`. -/
def session_from_cookie_cache (cc : CookieCache) (login_url : String)
    (default_headers : List (String × String)) (now : Int) :
    Except OpenIDClientError ClientConfig :=
  if cc.login_url ≠ login_url then
    Except.error (OpenIDClientError.CookieCacheError
      "Login URLs don't match. Not reusing cached cookies.")
  else if cc.is_expired now then
    Except.error (OpenIDClientError.CookieCacheError "Cookies are expired.")
  else
    match cookieHeadersList cc.cookies with
    | Except.error _ =>
      Except.error (OpenIDClientError.CookieCacheError "Failed to construct cookie headers.")
    | Except.ok ch =>
      Except.ok
        { defaultHeaders := ch ++ default_headers
          cookieStore := true
          cookieProvider := false
          redirectPolicy := RedirectPolicy.noRedirect }

/-- The live-login path of the `CookieCache` variant: the walk, the
credential collection, the two POSTs; on success the cookie cache is
written back only when `cache_cookies` is set, and the session keeps the
login-phase client. -/
def liveLoginCC (t : Transport) (pu : String → Option Url) (login_url : Url)
    (username password ua : String) (cache_cookies saveOk : Bool) (fuel : Nat) :
    Option (Except OpenIDClientError SessionModel × List Event) :=
  match walk t pu fuel login_url [] with
  | none => none
  | some (Except.error e, log) => some (Except.error e, log)
  | some (Except.ok st, log) =>
    let form := collectCredentials username password st
    let pr := authPhase t pu form (loginClientCC ua)
      (if cache_cookies then [Event.cacheWrite saveOk] else [])
    some (pr.1, log ++ pr.2)

/-- `OpenIDSessionBuilder::build` of `src/openid/mod.rs`: try the on-disk
cache (`cacheLoad` models `CookieCache::from_cached`), reuse it when
`session_from_cookie_cache` accepts it, and otherwise run the live login.
-/
def buildCC (t : Transport) (pu : String → Option Url) (login_url : Url)
    (username password ua : String) (cache_cookies : Bool)
    (cacheLoad : Except String CookieCache) (now : Int) (saveOk : Bool) (fuel : Nat) :
    Option (Except OpenIDClientError SessionModel × List Event) :=
  match cacheLoad with
  | Except.ok cookies =>
    match session_from_cookie_cache cookies login_url.text (defaultHeadersOf ua) now with
    | Except.ok client => some (Except.ok { client, params := none }, [])
    | Except.error _ =>
      liveLoginCC t pu login_url username password ua cache_cookies saveOk fuel
  | Except.error _ =>
    liveLoginCC t pu login_url username password ua cache_cookies saveOk fuel

/-! ## `build()`, `CachingJar` variant (`src/openid.rs`) -/
/-- The freshness state `CachingJar::read_from_disk` reports. -/
inductive CacheState where
  | fresh
  | expired
deriving DecidableEq

/-- `CookieCacheError` of `src/openid/cookies.rs`. -/
inductive CookieCacheLoadError where
  | doesNotExist
  | fileSystemError
  | serializationError
deriving DecidableEq

/-- The final client of the `CachingJar` variant: default headers, cookie
store bound to the jar, and no `.redirect(...)` override — the default
automatic redirect following. -/
def cjFinalClient (ua : String) : ClientConfig :=
  { defaultHeaders := defaultHeadersOf ua
    cookieStore := true
    cookieProvider := true
    redirectPolicy := RedirectPolicy.standard }

/-- The live-login path of the `CachingJar` variant: the walk, the
credential collection, the two POSTs; on success the jar is written back
unconditionally and a fresh redirect-following client is built. -/
def liveLoginCJ (t : Transport) (pu : String → Option Url) (login_url : Url)
    (username password ua : String) (saveOk : Bool) (fuel : Nat) :
    Option (Except OpenIDClientError SessionModel × List Event) :=
  match walk t pu fuel login_url [] with
  | none => none
  | some (Except.error e, log) => some (Except.error e, log)
  | some (Except.ok st, log) =>
    let form := collectCredentials username password st
    let pr := authPhase t pu form (cjFinalClient ua) [Event.cacheWrite saveOk]
    some (pr.1, log ++ pr.2)

/-- `OpenIDSessionBuilder::build` of `src/openid.rs`: a fresh jar loaded
from disk short-circuits to a redirect-following client; anything else
(expired jar or load error) falls back to the live login. -/
def buildCJ (t : Transport) (pu : String → Option Url) (login_url : Url)
    (username password ua : String)
    (jarLoad : Except CookieCacheLoadError CacheState) (saveOk : Bool) (fuel : Nat) :
    Option (Except OpenIDClientError SessionModel × List Event) :=
  match jarLoad with
  | Except.ok CacheState.fresh =>
    some (Except.ok { client := cjFinalClient ua, params := none }, [])
  | _ => liveLoginCJ t pu login_url username password ua saveOk fuel

/-! ## Visited-chain view of the redirect walker -/
/-- The value a key receives from a chain of visited URLs: the last value
of the latest hop whose query mentions the key. -/
def chainLast (k : String) (us : List Url) : Option String :=
  us.foldl
    (fun acc u =>
      match pairsLast k u.query with
      | some v => some v
      | none => acc)
    none

/-! ## Concrete scenario data used by witnesses and counterexamples -/
/-- A login URL carrying two query parameters. -/
def urlA : Url := { text := "https://x/login", query := [("k", "1"), ("foo", "bar")] }

/-- A second-hop URL overriding one parameter. -/
def urlB : Url := { text := "https://x/next", query := [("k", "2")] }

/-- A transport that redirects the login URL to `urlB` once. -/
def transport1 : Transport :=
  { get := fun u =>
      if u.text = "https://x/login" then
        some { status := 302, location := some (HeaderVal.val "https://x/next") }
      else some { status := 200, location := none }
    authPost := AuthPostOutcome.body none
    returnPost := fun _ => some 200 }

/-- A `Url::parse` oracle resolving the one redirect target. -/
def parseUrl1 : String → Option Url :=
  fun s => if s = "https://x/next" then some urlB else none

/-! ## Cache and transport fixtures -/

/-- A cache whose only cookie has a value that is not a valid header value. -/
def badCache : CookieCache :=
  { login_url := "https://x/login"
    cookies := [{ name := "n", value := "\n", expires := none }] }

/-- A fresh cache whose cookie converts to a valid header. -/
def goodCache : CookieCache :=
  { login_url := "https://x/login"
    cookies := [{ name := "a", value := "b", expires := some 100 }] }

/-- The login URL both caches were saved under, without query parameters. -/
def flatUrl : Url := { text := "https://x/login", query := [] }

/-- A different login URL. -/
def otherUrl : Url := { text := "https://y/login", query := [] }

/-- A transport that answers every GET with a plain 200 and fails the
first POST with a non-JSON body. -/
def flatTransport : Transport :=
  { get := fun _ => some { status := 200, location := none }
    authPost := AuthPostOutcome.body none
    returnPost := fun _ => some 200 }

/-- A `Url::parse` oracle that rejects everything. -/
def noParse : String → Option Url := fun _ => none

/-! ## Cookie-record distinctness -/

/-- No two records agree in both name and value. -/
def distinctNV (l : List SimpleCookie) : Prop :=
  List.Pairwise (fun a b => ¬(a.name = b.name ∧ a.value = b.value)) l

/-- The full parameter set the happy-path scenario's provider returns. -/
def okParams : OpenIDParameters :=
  { assoc_handle := "h", cla_signed_cla := "c", claimed_id := "i", identity := "id"
    lp_is_member := "m", mode := "id_res", ns := "ns", ns_cla := "nc", ns_lp := "nl"
    ns_sreg := "nsr", op_endpoint := "op", response_nonce := "rn"
    return_to := "https://x/done", sig := "s", signed := "sg", sreg_email := "e"
    sreg_nickname := "nick", extra := [] }

/-- The provider's JSON for `okParams`. -/
def paramsJson : Json := Json.obj
  [("openid.assoc_handle", Json.str "h"), ("openid.cla.signed_cla", Json.str "c"),
   ("openid.claimed_id", Json.str "i"), ("openid.identity", Json.str "id"),
   ("openid.lp.is_member", Json.str "m"), ("openid.mode", Json.str "id_res"),
   ("openid.ns", Json.str "ns"), ("openid.ns.cla", Json.str "nc"),
   ("openid.ns.lp", Json.str "nl"), ("openid.ns.sreg", Json.str "nsr"),
   ("openid.op_endpoint", Json.str "op"), ("openid.response_nonce", Json.str "rn"),
   ("openid.return_to", Json.str "https://x/done"), ("openid.sig", Json.str "s"),
   ("openid.signed", Json.str "sg"), ("openid.sreg.email", Json.str "e"),
   ("openid.sreg.nickname", Json.str "nick")]

/-- A successful `{success: true, response: ...}` body. -/
def okBody : Json := Json.obj [("success", Json.bool true), ("response", paramsJson)]

/-- The decoded envelope of `okBody`. -/
def okResp : OpenIDResponse := { success := true, response := okParams }

/-- The `return_to` destination of the happy-path scenario. -/
def doneUrl : Url := { text := "https://x/done", query := [] }

/-- A transport on which the whole handshake succeeds. -/
def happyTransport : Transport :=
  { get := fun _ => some { status := 200, location := none }
    authPost := AuthPostOutcome.body (some okBody)
    returnPost := fun _ => some 302 }

/-- A `Url::parse` oracle resolving the `return_to` URL. -/
def happyParse : String → Option Url :=
  fun s => if s = "https://x/done" then some doneUrl else none

/-! ### Theorems -/

theorem mGet_mInsert (m : StateMap) (k v q : String) :
    mGet (mInsert m k v) q = if q = k then some v else mGet m q := by
  induction m with
  | nil =>
    simp only [mInsert, mGet]
    by_cases h : q = k
    · simp [h]
    · have hkq : ¬k = q := fun h' => h h'.symm
      simp [h, hkq]
  | cons p rest ih =>
    simp only [mInsert]
    by_cases hp : p.1 = k
    · simp only [if_pos hp, mGet]
      by_cases hq : q = k
      · simp [hq]
      · have hkq : ¬k = q := fun h => hq h.symm
        have hpq : ¬p.1 = q := fun h => hq ((hp.symm.trans h).symm)
        simp [hq, hkq, hpq]
    · simp only [if_neg hp, mGet]
      by_cases hq : p.1 = q
      · have : ¬q = k := fun h => hp (hq.trans h)
        simp [hq, this]
      · simp [hq, ih]

theorem foldlLast_acc (k : String) (ps : List (String × String)) (a : Option String) :
    ps.foldl (fun acc p => if p.1 = k then some p.2 else acc) a =
      (ps.foldl (fun acc p => if p.1 = k then some p.2 else acc) none).or a := by
  induction ps generalizing a with
  | nil => simp
  | cons p rest ih =>
    simp only [List.foldl_cons]
    by_cases hp : p.1 = k
    · rw [if_pos hp, if_pos hp, ih (some p.2)]
      cases rest.foldl (fun acc p => if p.1 = k then some p.2 else acc) none with
      | none => simp
      | some v => simp
    · rw [if_neg hp, if_neg hp]
      exact ih a

theorem mGet_insertPairs (m : StateMap) (ps : List (String × String)) (k : String) :
    mGet (insertPairs m ps) k =
      match pairsLast k ps with
      | some v => some v
      | none => mGet m k := by
  induction ps generalizing m with
  | nil => simp [insertPairs, pairsLast]
  | cons p rest ih =>
    simp only [insertPairs, pairsLast, List.foldl_cons] at *
    rw [ih, mGet_mInsert]
    by_cases hp : p.1 = k
    · rw [if_pos hp, if_pos (show k = p.1 from hp.symm),
        foldlLast_acc k rest (some p.2)]
      cases rest.foldl (fun acc p => if p.1 = k then some p.2 else acc) none with
      | none => simp
      | some v => simp
    · rw [if_neg hp, if_neg (fun h : k = p.1 => hp h.symm)]

theorem chainLast_acc (k : String) (us : List Url) (a : Option String) :
    us.foldl
      (fun acc u =>
        match pairsLast k u.query with
        | some v => some v
        | none => acc)
      a =
      (chainLast k us).or a := by
  induction us generalizing a with
  | nil => simp [chainLast]
  | cons u rest ih =>
    simp only [chainLast, List.foldl_cons]
    cases hu : pairsLast k u.query with
    | none =>
      simp only [hu]
      exact ih a
    | some v =>
      simp only [hu]
      rw [ih (some v)]
      cases chainLast k rest <;> cases a <;> rfl

theorem walk_zero (t : Transport) (pu : String → Option Url) (url : Url) (st : StateMap) :
    walk t pu 0 url st = none := rfl

theorem match_or (o x : Option String) :
    (match o with
     | some v => some v
     | none => x) = o.or x := by
  cases o <;> rfl

theorem or_assoc' (a b c : Option String) : (a.or b).or c = a.or (b.or c) := by
  cases a <;> cases b <;> rfl

theorem chainLast_cons (k : String) (u : Url) (us : List Url) :
    chainLast k (u :: us) = (chainLast k us).or (pairsLast k u.query) := by
  simp only [chainLast, List.foldl_cons]
  rw [chainLast_acc]
  cases pairsLast k u.query <;> rfl

/-- A successful walk visits a non-empty chain of URLs starting at the
start URL; its log is exactly the GETs of that chain, and the final
accumulator is the last-write-wins union of the chain's query parameters
over the initial state. -/
theorem walk_chain (t : Transport) (pu : String → Option Url) :
    ∀ (fuel : Nat) (url : Url) (st st' : StateMap) (log : List Event),
    walk t pu fuel url st = some (Except.ok st', log) →
    ∃ us : List Url, log = us.map Event.get ∧ us.head? = some url ∧
      ∀ k, mGet st' k = (chainLast k us).or (mGet st k) := by
  intro fuel
  induction fuel with
  | zero =>
    intro url st st' log h
    simp [walk] at h
  | succ n ih =>
    intro url st st' log h
    simp only [walk] at h
    cases hg : t.get url with
    | none =>
      rw [hg] at h
      simp at h
    | some resp =>
      rw [hg] at h
      dsimp only at h
      by_cases hr : isRedirection resp.status = true
      · rw [if_pos hr] at h
        cases hl : resp.location with
        | none => rw [hl] at h; simp at h
        | some hv =>
          rw [hl] at h
          cases hv with
          | undecodable => simp at h
          | val s =>
            dsimp only at h
            cases hp : pu s with
            | none => rw [hp] at h; simp at h
            | some next =>
              rw [hp] at h
              dsimp only at h
              cases hw : walk t pu n next (insertPairs st url.query) with
              | none => rw [hw] at h; simp at h
              | some pr =>
                rw [hw] at h
                obtain ⟨r, log'⟩ := pr
                cases r with
                | error e => simp at h
                | ok st'' =>
                  simp only [Option.some.injEq, Prod.mk.injEq, Except.ok.injEq] at h
                  obtain ⟨hst, hlog⟩ := h
                  subst hst
                  subst hlog
                  obtain ⟨us', hlog', hhead', hval'⟩ := ih next (insertPairs st url.query) st'' log' hw
                  refine ⟨url :: us', ?_, rfl, ?_⟩
                  · simp [hlog']
                  · intro k
                    rw [hval' k, mGet_insertPairs, match_or, chainLast_cons, or_assoc']
      · rw [if_neg hr] at h
        simp only [Option.some.injEq, Prod.mk.injEq, Except.ok.injEq] at h
        obtain ⟨hst, hlog⟩ := h
        subst hst
        subst hlog
        refine ⟨[url], rfl, rfl, ?_⟩
        intro k
        rw [mGet_insertPairs, match_or]
        have : chainLast k [url] = pairsLast k url.query := by
          simp only [chainLast, List.foldl_cons, List.foldl_nil]
          cases pairsLast k url.query <;> rfl
        rw [this]

/-! ## Claim C1 -/
/-- C1: for every finite redirect chain the walker follows to completion,
the final accumulator is the last-write-wins union of the query parameters
of every visited URL (the chain starts at the start URL and its GETs are
exactly the log): a key maps to the value from the latest hop on which it
appeared, and keys from no hop keep their initial-state value. -/
theorem C1_redirect_walker_accumulates_lww (t : Transport) (pu : String → Option Url)
    (fuel : Nat) (url : Url) (st st' : StateMap) (log : List Event)
    (h : walk t pu fuel url st = some (Except.ok st', log)) :
    ∃ us : List Url, log = us.map Event.get ∧ us.head? = some url ∧
      ∀ k, mGet st' k = (chainLast k us).or (mGet st k) :=
  walk_chain t pu fuel url st st' log h

/-- Witness for C1 on a concrete two-hop chain. -/
theorem C1_redirect_walker_accumulates_lww_witness :
    ∃ us : List Url, [Event.get urlA, Event.get urlB] = us.map Event.get ∧
      us.head? = some urlA ∧
      ∀ k, mGet ([("k", "2"), ("foo", "bar")] : StateMap) k =
        (chainLast k us).or (mGet ([] : StateMap) k) :=
  C1_redirect_walker_accumulates_lww transport1 parseUrl1 2 urlA []
    [("k", "2"), ("foo", "bar")] [Event.get urlA, Event.get urlB] rfl

/-! ## Claim C2 -/
/-- C2: the credential-collection step maps `username`, `password`,
`auth_module` and `auth_flow` to the supplied username, the supplied
password, `"fedoauth.auth.fas.Auth_FAS"` and `"fedora"` (overwriting any
prior values), keeps a pre-existing `openid.mode` and defaults it to
`"checkid_setup"` otherwise, and leaves every other entry unchanged. -/
theorem C2_collect_credentials_overrides (username password : String) (st : StateMap) :
    mGet (collectCredentials username password st) "username" = some username ∧
    mGet (collectCredentials username password st) "password" = some password ∧
    mGet (collectCredentials username password st) "auth_module" =
      some "fedoauth.auth.fas.Auth_FAS" ∧
    mGet (collectCredentials username password st) "auth_flow" = some "fedora" ∧
    (∀ v, mGet st "openid.mode" = some v →
      mGet (collectCredentials username password st) "openid.mode" = some v) ∧
    (mGet st "openid.mode" = none →
      mGet (collectCredentials username password st) "openid.mode" = some "checkid_setup") ∧
    (∀ k, k ≠ "username" → k ≠ "password" → k ≠ "auth_module" → k ≠ "auth_flow" →
      k ≠ "openid.mode" → mGet (collectCredentials username password st) k = mGet st k) := by
  cases hm : mGet st "openid.mode" with
  | some v =>
    refine ⟨?_, ?_, ?_, ?_, ?_, ?_, ?_⟩
    · simp [collectCredentials, mGet_mInsert, hm]
    · simp [collectCredentials, mGet_mInsert, hm]
    · simp [collectCredentials, mGet_mInsert, hm]
    · simp [collectCredentials, mGet_mInsert, hm]
    · intro w hw
      have hvw : v = w := by injection hw
      subst hvw
      simp [collectCredentials, mGet_mInsert, hm]
    · intro hn
      exact absurd hn (by simp)
    · intro k h1 h2 h3 h4 h5
      simp [collectCredentials, mGet_mInsert, hm, h1, h2, h3, h4, h5]
  | none =>
    refine ⟨?_, ?_, ?_, ?_, ?_, ?_, ?_⟩
    · simp [collectCredentials, mGet_mInsert, hm]
    · simp [collectCredentials, mGet_mInsert, hm]
    · simp [collectCredentials, mGet_mInsert, hm]
    · simp [collectCredentials, mGet_mInsert, hm]
    · intro w hw
      exact absurd hw (by simp)
    · intro _
      simp [collectCredentials, mGet_mInsert, hm]
    · intro k h1 h2 h3 h4 h5
      simp [collectCredentials, mGet_mInsert, hm, h1, h2, h3, h4, h5]

/-- Witness for C2 on a concrete accumulator that already carries an
`openid.mode` and an unrelated key. -/
theorem C2_collect_credentials_overrides_witness :
    mGet (collectCredentials "user" "pw"
      ([("openid.mode", "id_res"), ("other", "x")] : StateMap)) "username" = some "user" ∧
    mGet (collectCredentials "user" "pw"
      ([("openid.mode", "id_res"), ("other", "x")] : StateMap)) "openid.mode" = some "id_res" ∧
    mGet (collectCredentials "user" "pw"
      ([("openid.mode", "id_res"), ("other", "x")] : StateMap)) "other" = some "x" := by
  have h := C2_collect_credentials_overrides "user" "pw"
    ([("openid.mode", "id_res"), ("other", "x")] : StateMap)
  exact ⟨h.1, h.2.2.2.2.1 "id_res" rfl,
    (h.2.2.2.2.2.2 "other" (by decide) (by decide) (by decide) (by decide) (by decide)).trans rfl⟩

/-! ## Claim C3 -/
/-- C3 counterexample: `{}` is valid JSON that does not match the
`{success, response}` envelope, yet the first-phase handler returns
`LoginError` — not the `DeserializationError` the claim requires for
shape mismatches, so the two conditions do not yield distinct kinds. -/
theorem C3_shape_mismatch_counterexample :
    decodeOpenIDResponse (Json.obj []) = none ∧
    parseAuthResponse (some (Json.obj [])) = Except.error OpenIDClientError.LoginError ∧
    OpenIDClientError.LoginError ≠ OpenIDClientError.DeserializationError :=
  ⟨rfl, rfl, by decide⟩

/-- C3 amended: every first-phase body that fails to deserialize as the
envelope — whether it is not valid JSON at all, or is valid JSON of the
wrong shape — yields `LoginError`; the single `Err(_)` arm never produces
`DeserializationError`. -/
theorem C3_login_error_for_all_failures (body : Option Json)
    (h : body.bind decodeOpenIDResponse = none) :
    parseAuthResponse body = Except.error OpenIDClientError.LoginError := by
  simp [parseAuthResponse, h]

/-- Witness for the amended C3 on a body that is not valid JSON. -/
theorem C3_login_error_for_all_failures_witness :
    Option.bind (none : Option Json) decodeOpenIDResponse = none ∧
    parseAuthResponse none = Except.error OpenIDClientError.LoginError :=
  ⟨rfl, C3_login_error_for_all_failures none rfl⟩

/-! ## Claim C4 -/
theorem isExpiredList_iff (now : Int) (l : List SimpleCookie) :
    isExpiredList now l = true ↔ ∃ c ∈ l, ∃ e, c.expires = some e ∧ e ≤ now := by
  induction l with
  | nil => simp [isExpiredList]
  | cons c rest ih =>
    cases hce : c.expires with
    | none =>
      simp only [isExpiredList, hce, ih]
      constructor
      · rintro ⟨d, hd, e, he, hle⟩
        exact ⟨d, List.mem_cons_of_mem c hd, e, he, hle⟩
      · rintro ⟨d, hd, e, he, hle⟩
        rcases List.mem_cons.mp hd with h | h
        · subst h
          rw [hce] at he
          cases he
        · exact ⟨d, h, e, he, hle⟩
    | some e =>
      by_cases hle : e ≤ now
      · simp only [isExpiredList, hce, if_pos hle]
        constructor
        · intro _
          exact ⟨c, List.mem_cons_self c rest, e, hce, hle⟩
        · intro _
          trivial
      · simp only [isExpiredList, hce, if_neg hle, ih]
        constructor
        · rintro ⟨d, hd, f, hf, hfle⟩
          exact ⟨d, List.mem_cons_of_mem c hd, f, hf, hfle⟩
        · rintro ⟨d, hd, f, hf, hfle⟩
          rcases List.mem_cons.mp hd with h | h
          · subst h
            rw [hce] at hf
            injection hf with hef
            subst hef
            exact absurd hfle hle
          · exact ⟨d, h, f, hf, hfle⟩

/-- C4: the freshness check reports the cache expired exactly when some
stored cookie has an expiry at or before the current time; an empty cache
and a cache whose cookies all lack an expiry are never expired. -/
theorem C4_freshness (cc : CookieCache) (now : Int) :
    (cc.is_expired now = true ↔ ∃ c ∈ cc.cookies, ∃ e, c.expires = some e ∧ e ≤ now) ∧
    (cc.cookies = [] → cc.is_expired now = false) ∧
    ((∀ c ∈ cc.cookies, c.expires = none) → cc.is_expired now = false) := by
  refine ⟨isExpiredList_iff now cc.cookies, ?_, ?_⟩
  · intro h
    simp [CookieCache.is_expired, h, isExpiredList]
  · intro h
    by_contra hx
    have hx' : cc.is_expired now = true := by
      cases hb : cc.is_expired now with
      | true => rfl
      | false => exact absurd hb hx
    obtain ⟨c, hc, e, he, _⟩ := (isExpiredList_iff now cc.cookies).mp hx'
    rw [h c hc] at he
    cases he

/-- Witness for C4: a cache whose only cookie expired in the past is
reported expired; one with only a session cookie is fresh. -/
theorem C4_freshness_witness :
    CookieCache.is_expired { login_url := "L", cookies := [{ name := "a", value := "b", expires := some 10 }] } 20 = true ∧
    CookieCache.is_expired { login_url := "L", cookies := [{ name := "a", value := "b", expires := none }] } 20 = false :=
  ⟨(C4_freshness { login_url := "L", cookies := [{ name := "a", value := "b", expires := some 10 }] } 20).1.mpr
      ⟨{ name := "a", value := "b", expires := some 10 }, by simp, 10, rfl, by decide⟩,
    (C4_freshness { login_url := "L", cookies := [{ name := "a", value := "b", expires := none }] } 20).2.2
      (by intro c hc; simp at hc; rw [hc])⟩

/-! ## Claim C5 -/

/-- C5 counterexample: a cache that loads successfully, matches the login
URL and is fresh, but holds a cookie whose `name=value` is not a valid
header value: `build()` does not return the cached session — it falls
through to a full network login (a GET and a POST are performed and the
result here is a login failure, not `Ok` with `params = None`). -/
theorem C5_header_failure_counterexample :
    badCache.login_url = flatUrl.text ∧
    badCache.is_expired 0 = false ∧
    buildCC flatTransport noParse flatUrl "user" "pass" "ua" false
        (Except.ok badCache) 0 true 1
      = some (Except.error OpenIDClientError.LoginError,
          [Event.get flatUrl, Event.postAuth (collectCredentials "user" "pass" ([] : StateMap))]) :=
  ⟨rfl, rfl, rfl⟩

/-- C5 amended: if the cache loads successfully, its stored login URL
equals the requested one, it is fresh, and additionally every cached
cookie converts to a valid header value, then `build()` returns `Ok` with
`params = None` and performs no network requests. -/
theorem C5_cache_hit_shortcut (t : Transport) (pu : String → Option Url)
    (login_url : Url) (username password ua : String) (cache_cookies : Bool)
    (cc : CookieCache) (now : Int) (saveOk : Bool) (fuel : Nat)
    (ch : List (String × String))
    (hurl : cc.login_url = login_url.text)
    (hfresh : cc.is_expired now = false)
    (hheaders : cookieHeadersList cc.cookies = Except.ok ch) :
    buildCC t pu login_url username password ua cache_cookies (Except.ok cc) now saveOk fuel
      = some (Except.ok
          { client :=
              { defaultHeaders := ch ++ defaultHeadersOf ua
                cookieStore := true
                cookieProvider := false
                redirectPolicy := RedirectPolicy.noRedirect }
            params := none }, []) := by
  simp [buildCC, session_from_cookie_cache, hurl, hfresh, hheaders]

/-- Witness for the amended C5 on a concrete fresh, matching cache. -/
theorem C5_cache_hit_shortcut_witness :
    buildCC flatTransport noParse flatUrl "user" "pass" "ua" false
        (Except.ok goodCache) 5 true 1
      = some (Except.ok
          { client :=
              { defaultHeaders := [("cookie", "a=b")] ++ defaultHeadersOf "ua"
                cookieStore := true
                cookieProvider := false
                redirectPolicy := RedirectPolicy.noRedirect }
            params := none }, []) :=
  C5_cache_hit_shortcut flatTransport noParse flatUrl "user" "pass" "ua" false
    goodCache 5 true 1 [("cookie", "a=b")] rfl rfl rfl

/-! ## Claim C6 -/
theorem walk_log_head (t : Transport) (pu : String → Option Url) (fuel : Nat)
    (url : Url) (st : StateMap) (r : Except OpenIDClientError StateMap) (log : List Event)
    (h : walk t pu fuel url st = some (r, log)) :
    log.head? = some (Event.get url) := by
  cases fuel with
  | zero => simp [walk] at h
  | succ n =>
    simp only [walk] at h
    cases hg : t.get url with
    | none =>
      rw [hg] at h
      dsimp only at h
      simp only [Option.some.injEq, Prod.mk.injEq] at h
      rw [← h.2]
      rfl
    | some resp =>
      rw [hg] at h
      dsimp only at h
      by_cases hr : isRedirection resp.status = true
      · rw [if_pos hr] at h
        cases hl : resp.location with
        | none =>
          rw [hl] at h
          dsimp only at h
          simp only [Option.some.injEq, Prod.mk.injEq] at h
          rw [← h.2]
          rfl
        | some hv =>
          rw [hl] at h
          cases hv with
          | undecodable =>
            dsimp only at h
            simp only [Option.some.injEq, Prod.mk.injEq] at h
            rw [← h.2]
            rfl
          | val s =>
            dsimp only at h
            cases hp : pu s with
            | none =>
              rw [hp] at h
              dsimp only at h
              simp only [Option.some.injEq, Prod.mk.injEq] at h
              rw [← h.2]
              rfl
            | some next =>
              rw [hp] at h
              dsimp only at h
              cases hw : walk t pu n next (insertPairs st url.query) with
              | none =>
                rw [hw] at h
                simp at h
              | some pr =>
                rw [hw] at h
                obtain ⟨r', log'⟩ := pr
                dsimp only at h
                simp only [Option.some.injEq, Prod.mk.injEq] at h
                rw [← h.2]
                rfl
      · rw [if_neg hr] at h
        simp only [Option.some.injEq, Prod.mk.injEq] at h
        rw [← h.2]
        rfl

theorem authPhase_ok (t : Transport) (pu : String → Option Url) (form : StateMap)
    (fc : ClientConfig) (we : List Event) (s : SessionModel) (plog : List Event)
    (h : authPhase t pu form fc we = (Except.ok s, plog)) :
    s.client = fc ∧ (∃ resp, s.params = some resp) ∧
      ∃ ru, plog = [Event.postAuth form, Event.postReturn ru] ++ we := by
  unfold authPhase at h
  cases ha : t.authPost with
  | sendFailure msg => rw [ha] at h; simp at h
  | textFailure => rw [ha] at h; simp at h
  | body b =>
    rw [ha] at h
    dsimp only at h
    cases hp : parseAuthResponse b with
    | error e => rw [hp] at h; simp at h
    | ok openid_auth =>
      rw [hp] at h
      dsimp only at h
      by_cases hs : openid_auth.success = true
      · rw [if_neg (by simp [hs])] at h
        cases hu : pu openid_auth.response.return_to with
        | none => rw [hu] at h; simp at h
        | some ru =>
          rw [hu] at h
          dsimp only at h
          cases hrp : t.returnPost ru with
          | none => rw [hrp] at h; simp at h
          | some status =>
            rw [hrp] at h
            dsimp only at h
            by_cases hst : (!isSuccessStatus status && !isRedirection status) = true
            · rw [if_pos hst] at h; simp at h
            · rw [if_neg hst] at h
              simp only [Prod.mk.injEq] at h
              obtain ⟨h1, h2⟩ := h
              have h1' : ({ client := fc, params := some openid_auth.response } : SessionModel) = s := by
                injection h1
              subst h1'
              exact ⟨rfl, ⟨openid_auth.response, rfl⟩, ru, h2.symm⟩
      · have hs' : openid_auth.success = false := by
          cases hb : openid_auth.success with
          | true => exact absurd hb hs
          | false => rfl
        rw [if_pos (by simp [hs'])] at h
        simp at h

theorem liveLoginCC_log_head (t : Transport) (pu : String → Option Url) (login_url : Url)
    (username password ua : String) (cache_cookies saveOk : Bool) (fuel : Nat)
    (r : Except OpenIDClientError SessionModel) (log : List Event)
    (h : liveLoginCC t pu login_url username password ua cache_cookies saveOk fuel
      = some (r, log)) :
    log.head? = some (Event.get login_url) := by
  unfold liveLoginCC at h
  cases hw : walk t pu fuel login_url [] with
  | none => rw [hw] at h; simp at h
  | some pr =>
    rw [hw] at h
    obtain ⟨wr, wlog⟩ := pr
    have hhead := walk_log_head t pu fuel login_url [] wr wlog hw
    cases wr with
    | error e =>
      dsimp only at h
      simp only [Option.some.injEq, Prod.mk.injEq] at h
      rw [← h.2]
      exact hhead
    | ok st =>
      dsimp only at h
      simp only [Option.some.injEq, Prod.mk.injEq] at h
      rw [← h.2]
      cases wlog with
      | nil => simp at hhead
      | cons a rest =>
        simp only [List.head?] at hhead ⊢
        simpa using hhead

theorem liveLoginCC_ok_posts (t : Transport) (pu : String → Option Url) (login_url : Url)
    (username password ua : String) (cache_cookies saveOk : Bool) (fuel : Nat)
    (s : SessionModel) (log : List Event)
    (h : liveLoginCC t pu login_url username password ua cache_cookies saveOk fuel
      = some (Except.ok s, log)) :
    ∃ form ru, Event.postAuth form ∈ log ∧ Event.postReturn ru ∈ log := by
  unfold liveLoginCC at h
  cases hw : walk t pu fuel login_url [] with
  | none => rw [hw] at h; simp at h
  | some pr =>
    rw [hw] at h
    obtain ⟨wr, wlog⟩ := pr
    cases wr with
    | error e =>
      dsimp only at h
      simp at h
    | ok st =>
      dsimp only at h
      simp only [Option.some.injEq, Prod.mk.injEq] at h
      obtain ⟨h1, h2⟩ := h
      have hpair : authPhase t pu (collectCredentials username password st) (loginClientCC ua)
          (if cache_cookies = true then [Event.cacheWrite saveOk] else [])
          = (Except.ok s,
            (authPhase t pu (collectCredentials username password st) (loginClientCC ua)
              (if cache_cookies = true then [Event.cacheWrite saveOk] else [])).2) := by
        rw [← h1]
      obtain ⟨_, _, ru, hru⟩ := authPhase_ok t pu (collectCredentials username password st)
        (loginClientCC ua) (if cache_cookies = true then [Event.cacheWrite saveOk] else [])
        s _ hpair
      refine ⟨collectCredentials username password st, ru, ?_, ?_⟩
      · rw [← h2, hru]
        simp
      · rw [← h2, hru]
        simp

/-- C6: a successfully loaded cache whose stored login URL differs from
the requested one is not reused: `build()` runs the live-login path — the
log then starts with the GET of the login URL, and on success contains
both authentication POSTs. -/
theorem C6_url_mismatch_full_login (t : Transport) (pu : String → Option Url)
    (login_url : Url) (username password ua : String) (cache_cookies : Bool)
    (cc : CookieCache) (now : Int) (saveOk : Bool) (fuel : Nat)
    (hmismatch : cc.login_url ≠ login_url.text) :
    buildCC t pu login_url username password ua cache_cookies (Except.ok cc) now saveOk fuel
      = liveLoginCC t pu login_url username password ua cache_cookies saveOk fuel ∧
    (∀ r log,
      buildCC t pu login_url username password ua cache_cookies (Except.ok cc) now saveOk fuel
          = some (r, log) →
        log.head? = some (Event.get login_url)) ∧
    (∀ s log,
      buildCC t pu login_url username password ua cache_cookies (Except.ok cc) now saveOk fuel
          = some (Except.ok s, log) →
        ∃ form ru, Event.postAuth form ∈ log ∧ Event.postReturn ru ∈ log) := by
  have heq : buildCC t pu login_url username password ua cache_cookies (Except.ok cc) now saveOk fuel
      = liveLoginCC t pu login_url username password ua cache_cookies saveOk fuel := by
    simp [buildCC, session_from_cookie_cache, hmismatch]
  refine ⟨heq, ?_, ?_⟩
  · intro r log h
    rw [heq] at h
    exact liveLoginCC_log_head t pu login_url username password ua cache_cookies saveOk fuel r log h
  · intro s log h
    rw [heq] at h
    exact liveLoginCC_ok_posts t pu login_url username password ua cache_cookies saveOk fuel s log h

/-- Witness for C6: a fresh cache saved under a different login URL is not
reused; `build()` equals the live-login run. -/
theorem C6_url_mismatch_full_login_witness :
    buildCC flatTransport noParse otherUrl "user" "pass" "ua" false
        (Except.ok goodCache) 5 true 1
      = liveLoginCC flatTransport noParse otherUrl "user" "pass" "ua" false true 1 :=
  (C6_url_mismatch_full_login flatTransport noParse otherUrl "user" "pass" "ua" false
    goodCache 5 true 1 (by decide)).1

theorem ingestOne_distinct (l : List SimpleCookie) (c : SimpleCookie)
    (h : distinctNV l) : distinctNV (ingestOne l c) := by
  unfold ingestOne
  by_cases hd : isDuplicate l c = true
  · rw [if_pos hd]
    exact h
  · rw [if_neg hd]
    unfold distinctNV
    rw [List.pairwise_append]
    refine ⟨h, List.pairwise_singleton _ _, ?_⟩
    intro a ha b hb
    simp only [List.mem_singleton] at hb
    subst hb
    simp only [isDuplicate, List.any_eq_true, Bool.and_eq_true, decide_eq_true_eq,
      not_exists, not_and] at hd
    intro hab
    exact absurd hab.2 (hd a ha hab.1)

theorem foldl_ingest_distinct (incoming : List SimpleCookie) :
    ∀ l, distinctNV l → distinctNV (incoming.foldl ingestOne l) := by
  induction incoming with
  | nil =>
    intro l h
    exact h
  | cons c rest ih =>
    intro l h
    exact ih (ingestOne l c) (ingestOne_distinct l c h)

/-! ## Claim C7 -/

/-- C7 counterexample: ingesting two cookies with the same name and
different values appends both — the stored record is not replaced, and the
cache ends up with two records sharing the name `n`. -/
theorem C7_same_name_not_replaced_counterexample :
    (CookieCache.ingest_cookies { login_url := "L", cookies := [] }
        [{ name := "n", value := "v1", expires := none },
         { name := "n", value := "v2", expires := none }]).cookies
      = [{ name := "n", value := "v1", expires := none },
         { name := "n", value := "v2", expires := none }] ∧
    ((CookieCache.ingest_cookies { login_url := "L", cookies := [] }
        [{ name := "n", value := "v1", expires := none },
         { name := "n", value := "v2", expires := none }]).cookies.map SimpleCookie.name)
      = ["n", "n"] :=
  ⟨rfl, rfl⟩

/-- C7 amended: an ingested cookie is appended unless a record with the
same name and the same value is already stored (in which case nothing —
not even the expiry — is updated); starting from a cache whose records
have pairwise-distinct (name, value) pairs, that distinctness is
preserved, but two records may share a name with different values. -/
theorem C7_ingest_appends_unless_name_value_duplicate (cc : CookieCache)
    (incoming : List SimpleCookie) (hd : distinctNV cc.cookies) :
    distinctNV (cc.ingest_cookies incoming).cookies ∧
    (∀ c, isDuplicate cc.cookies c = true → cc.ingest_cookies [c] = cc) ∧
    (∀ c, isDuplicate cc.cookies c = false →
      (cc.ingest_cookies [c]).cookies = cc.cookies ++ [c]) := by
  refine ⟨foldl_ingest_distinct incoming cc.cookies hd, ?_, ?_⟩
  · intro c hc
    simp [CookieCache.ingest_cookies, ingestOne, hc]
  · intro c hc
    simp [CookieCache.ingest_cookies, ingestOne, hc]

/-- Witness for the amended C7 on an empty cache. -/
theorem C7_ingest_appends_unless_name_value_duplicate_witness :
    (CookieCache.ingest_cookies { login_url := "L", cookies := [] }
        [{ name := "n", value := "v", expires := none }]).cookies
      = [] ++ [{ name := "n", value := "v", expires := none }] :=
  (C7_ingest_appends_unless_name_value_duplicate { login_url := "L", cookies := [] }
    [{ name := "n", value := "v", expires := none }]
    (by simp [distinctNV])).2.2
    { name := "n", value := "v", expires := none } rfl

/-! ## Claim C8 -/
/-- C8: if the walk and both POSTs succeed, `build()` returns `Ok` with
the authenticated session and the full parameters even when writing the
cookie cache fails (`saveOk = false`): the failed write shows up only as a
logged event, never as an error result. -/
theorem C8_save_failure_swallowed (t : Transport) (pu : String → Option Url)
    (login_url : Url) (username password ua : String) (now : Int) (fuel : Nat)
    (loadErr : String) (st : StateMap) (wlog : List Event)
    (b : Option Json) (resp : OpenIDResponse) (ru : Url) (status : Nat)
    (hwalk : walk t pu fuel login_url [] = some (Except.ok st, wlog))
    (hpost : t.authPost = AuthPostOutcome.body b)
    (hdecode : b.bind decodeOpenIDResponse = some resp)
    (hsuccess : resp.success = true)
    (hret : pu resp.response.return_to = some ru)
    (hstatus : t.returnPost ru = some status)
    (hok : (isSuccessStatus status || isRedirection status) = true) :
    buildCC t pu login_url username password ua true (Except.error loadErr) now false fuel
      = some (Except.ok { client := loginClientCC ua, params := some resp.response },
          wlog ++ [Event.postAuth (collectCredentials username password st),
            Event.postReturn ru, Event.cacheWrite false]) := by
  have hcond : (!isSuccessStatus status && !isRedirection status) = false := by
    cases h1 : isSuccessStatus status <;> cases h2 : isRedirection status <;>
      simp_all
  simp [buildCC, liveLoginCC, authPhase, parseAuthResponse,
    hwalk, hpost, hdecode, hsuccess, hret, hstatus, hcond]

/-- Witness for C8: a concrete successful handshake whose cache write
fails still yields `Ok` with the parameters. -/
theorem C8_save_failure_swallowed_witness :
    buildCC happyTransport happyParse flatUrl "user" "pass" "ua" true
        (Except.error "no cache") 0 false 1
      = some (Except.ok { client := loginClientCC "ua", params := some okResp.response },
          [Event.get flatUrl] ++ [Event.postAuth (collectCredentials "user" "pass" ([] : StateMap)),
            Event.postReturn doneUrl, Event.cacheWrite false]) :=
  C8_save_failure_swallowed happyTransport happyParse flatUrl "user" "pass" "ua" 0 1
    "no cache" ([] : StateMap) [Event.get flatUrl] (some okBody) okResp doneUrl 302
    rfl rfl rfl rfl rfl rfl rfl

/-! ## Claim C9 -/
theorem liveLoginCJ_ok_client (t : Transport) (pu : String → Option Url) (login_url : Url)
    (username password ua : String) (saveOk : Bool) (fuel : Nat)
    (s : SessionModel) (log : List Event)
    (h : liveLoginCJ t pu login_url username password ua saveOk fuel = some (Except.ok s, log)) :
    s.client = cjFinalClient ua := by
  unfold liveLoginCJ at h
  cases hw : walk t pu fuel login_url [] with
  | none => rw [hw] at h; simp at h
  | some pr =>
    rw [hw] at h
    obtain ⟨wr, wlog⟩ := pr
    cases wr with
    | error e =>
      dsimp only at h
      simp at h
    | ok st =>
      dsimp only at h
      simp only [Option.some.injEq, Prod.mk.injEq] at h
      obtain ⟨h1, h2⟩ := h
      have hpair : authPhase t pu (collectCredentials username password st)
          (cjFinalClient ua) [Event.cacheWrite saveOk]
          = (Except.ok s,
            (authPhase t pu (collectCredentials username password st)
              (cjFinalClient ua) [Event.cacheWrite saveOk]).2) := by
        rw [← h1]
      exact (authPhase_ok t pu (collectCredentials username password st)
        (cjFinalClient ua) [Event.cacheWrite saveOk] s _ hpair).1

/-- C9 counterexample: in the `CookieCache` variant (`src/openid/mod.rs`)
both `Ok` paths return the `Policy::none()` client — the cache-reuse
session and the live-login session keep the no-redirect login client, so
the returned client does not follow redirects automatically. -/
theorem C9_no_redirect_client_counterexample :
    buildCC flatTransport noParse flatUrl "user" "pass" "ua" false
        (Except.ok goodCache) 5 true 1
      = some (Except.ok
          { client :=
              { defaultHeaders := [("cookie", "a=b")] ++ defaultHeadersOf "ua"
                cookieStore := true
                cookieProvider := false
                redirectPolicy := RedirectPolicy.noRedirect }
            params := none }, []) ∧
    buildCC happyTransport happyParse flatUrl "user" "pass" "ua" true
        (Except.error "no cache") 0 true 1
      = some (Except.ok { client := loginClientCC "ua", params := some okResp.response },
          [Event.get flatUrl, Event.postAuth (collectCredentials "user" "pass" ([] : StateMap)),
            Event.postReturn doneUrl, Event.cacheWrite true]) ∧
    (loginClientCC "ua").redirectPolicy = RedirectPolicy.noRedirect ∧
    RedirectPolicy.noRedirect ≠ RedirectPolicy.standard :=
  ⟨rfl, rfl, rfl, by decide⟩

/-- C9 amended: in the `CachingJar` variant (`src/openid.rs`) every `Ok`
session — cache reuse or live login — carries a client with the default
headers, the cookie store bound to the jar, and standard automatic
redirect following; only that variant's login-phase client disables
redirects. -/
theorem C9_cj_final_client_standard_redirects (t : Transport) (pu : String → Option Url)
    (login_url : Url) (username password ua : String)
    (jarLoad : Except CookieCacheLoadError CacheState) (saveOk : Bool) (fuel : Nat)
    (s : SessionModel) (log : List Event)
    (h : buildCJ t pu login_url username password ua jarLoad saveOk fuel
      = some (Except.ok s, log)) :
    s.client = cjFinalClient ua ∧
    s.client.redirectPolicy = RedirectPolicy.standard ∧
    s.client.defaultHeaders = defaultHeadersOf ua ∧
    s.client.cookieStore = true ∧
    s.client.cookieProvider = true := by
  have hc : s.client = cjFinalClient ua := by
    unfold buildCJ at h
    cases hj : jarLoad with
    | ok cs =>
      cases cs with
      | fresh =>
        rw [hj] at h
        dsimp only at h
        simp only [Option.some.injEq, Prod.mk.injEq] at h
        obtain ⟨h1, _⟩ := h
        have h1' : ({ client := cjFinalClient ua, params := none } : SessionModel) = s := by
          injection h1
        rw [← h1']
      | expired =>
        rw [hj] at h
        exact liveLoginCJ_ok_client t pu login_url username password ua saveOk fuel s log h
    | error e =>
      rw [hj] at h
      exact liveLoginCJ_ok_client t pu login_url username password ua saveOk fuel s log h
  refine ⟨hc, ?_, ?_, ?_, ?_⟩ <;> rw [hc] <;> rfl

/-- Witness for the amended C9 on a fresh jar. -/
theorem C9_cj_final_client_standard_redirects_witness :
    ({ client := cjFinalClient "ua", params := none } : SessionModel).client
        = cjFinalClient "ua" ∧
    ({ client := cjFinalClient "ua", params := none } : SessionModel).client.redirectPolicy
        = RedirectPolicy.standard ∧
    ({ client := cjFinalClient "ua", params := none } : SessionModel).client.defaultHeaders
        = defaultHeadersOf "ua" ∧
    ({ client := cjFinalClient "ua", params := none } : SessionModel).client.cookieStore = true ∧
    ({ client := cjFinalClient "ua", params := none } : SessionModel).client.cookieProvider = true :=
  C9_cj_final_client_standard_redirects flatTransport noParse flatUrl "user" "pass" "ua"
    (Except.ok CacheState.fresh) true 1
    { client := cjFinalClient "ua", params := none } [] rfl

/-! ## Claim C10 -/
/-- C10 counterexample: when the cache file's content fails to
deserialize and the deletion itself fails, the corrupt file *is* left in
place (`removed = false`), although a deletion was attempted and the
error message reports the failure — refuting "the corrupt file is never
left in place on the deserialization-failure path". -/
theorem C10_corrupt_file_left_counterexample :
    (from_cached (Except.ok (Except.error "bad json")) (Except.error "denied")).removeAttempted
        = true ∧
    (from_cached (Except.ok (Except.error "bad json")) (Except.error "denied")).removed = false ∧
    (from_cached (Except.ok (Except.error "bad json")) (Except.error "denied")).result
      = Except.error
          "Cookie cache was corrupt (bad json) but could not be deleted (denied)." :=
  ⟨rfl, rfl, rfl⟩

/-- C10 amended: on the deserialization-failure path `from_cached` always
attempts to delete the cache file before returning an error; the file is
actually removed exactly when the deletion succeeds, and the error message
reports which of the two happened. -/
theorem C10_corrupt_cache_deletion_attempted (perr : String)
    (removeResult : Except String Unit) :
    (from_cached (Except.ok (Except.error perr)) removeResult).removeAttempted = true ∧
    (from_cached (Except.ok (Except.error perr)) removeResult).removed
      = (match removeResult with
         | Except.ok _ => true
         | Except.error _ => false) ∧
    (from_cached (Except.ok (Except.error perr)) (Except.ok ())).result
      = Except.error ("Cookie cache was corrupt and was deleted: " ++ perr) ∧
    (∀ serr, (from_cached (Except.ok (Except.error perr)) (Except.error serr)).result
      = Except.error
          ("Cookie cache was corrupt (" ++ perr ++ ") but could not be deleted (" ++ serr ++ ").")) := by
  cases removeResult with
  | ok u => exact ⟨rfl, rfl, rfl, fun serr => rfl⟩
  | error e => exact ⟨rfl, rfl, rfl, fun serr => rfl⟩

end Fedora
